import Mathlib

/-!
Shallow embedding of the progress-metrics pipeline of
`src/web/src/components/psc/progress.tsx`: id normalization, priority
filtering, progress aggregation, the per-tier gauge percentage derivation
and the radar-chart dataset builder, together with proofs of the
specification's claims about them.

Modelling conventions:
* a JS string is its sequence of characters; `toLowerCase` maps
  `Char.toLower` over it and `replace(/ /g, '-')` maps the space-to-hyphen
  substitution over it;
* the two local-storage snapshots are total boolean maps on normalized ids
  (a JS object lookup of an absent key is falsy); the completion snapshot is
  an `Option` because `calculateProgress` explicitly guards on
  `!checkedItems.value` (a null / undefined store);
* JS numbers are modelled as `Int` (the counters only ever hold integers)
  and `Rat` (the division results); a JS division whose denominator is zero
  yields NaN or Infinity, neither of which is a number of the arithmetic, so
  the gauge-percentage derivation returns `Option Int` with `none` standing
  for that non-finite outcome.
-/

namespace PSC

/-- One checklist entry: display text (`point`) and a priority-tier string. -/
structure ChecklistItem where
  point : String
  priority : String
deriving Repr, DecidableEq

/-- One named group of checklist items (field names follow `~/types/PSC`). -/
structure Section where
  title : String
  checklist : List ChecklistItem
deriving Repr, DecidableEq

/-- Ordered catalog of sections, as in the `Sections` type alias. -/
abbrev Sections := List Section

/-- Aggregation result, as returned by `calculateProgress`. -/
structure ProgressResult where
  completed : Int
  outOf : Int
deriving Repr, DecidableEq

/-- Embedding of `point.toLowerCase().replace(/ /g, '-')` (progress.tsx line
42) and of the identical local `normalize` (line 64): lowercase every
character, then replace every space with a hyphen. -/
def normalize (s : String) : String :=
  ⟨(s.data.map Char.toLower).map (fun c => if c = ' ' then '-' else c)⟩

/-- Body of the per-item `forEach` of `calculateProgress` (lines 42-50):
increment the completed count when the item's normalized id is checked,
and independently decrement the remaining total when it is ignored. The
accumulator is the pair (totalComplete, totalItems). -/
def progressStep (checked ignored : String → Bool) (acc : Int × Int)
    (item : ChecklistItem) : Int × Int :=
  let id := normalize item.point
  let acc1 := if checked id then (acc.1 + 1, acc.2) else acc
  if ignored id then (acc1.1, acc1.2 - 1) else acc1

/-- Embedding of `calculateProgress` (lines 34-55). The first argument is
the `checkedItems.value` snapshot (`none` models a null / undefined store,
tripping the `!checkedItems.value` guard); the second is the
`ignoredItems.value` snapshot. -/
def calculateProgress (checkedItems : Option (String → Bool))
    (ignoredItems : String → Bool) (sections : Sections) : ProgressResult :=
  match checkedItems with
  | none => ⟨0, 0⟩
  | some checked =>
    if sections.length = 0 then ⟨0, 0⟩
    else
      let totalItems : Int :=
        sections.foldl (fun total sec => total + (sec.checklist.length : Int)) 0
      let res := sections.foldl
        (fun acc sec => sec.checklist.foldl (progressStep checked ignoredItems) acc)
        (0, totalItems)
      ⟨res.1, res.2⟩

/-- Embedding of `filterByPriority` (lines 63-69): a fresh section per input
section, same `title` (object spread), checklist restricted to the items
whose normalized priority equals the normalized target priority. -/
def filterByPriority (sections : Sections) (priority : String) : Sections :=
  sections.map fun sec =>
    { sec with
      checklist := sec.checklist.filter
        (fun item => normalize item.priority == normalize priority) }

/-- JS `Math.round`: round half towards positive infinity. -/
def jsRound (q : ℚ) : Int := ⌊q + 1 / 2⌋

/-- Percentage computed by `makeDataAndDrawChart` (line 132):
`Math.round((completed / outOf) * 100)`. The JS division by `outOf == 0`
yields NaN (when `completed == 0`) or Infinity, so the rounded value handed
to `drawProgress` is not a finite number; that outcome is `none`. -/
def gaugePercent (completed outOf : Int) : Option Int :=
  if outOf = 0 then none
  else some (jsRound ((completed : ℚ) / (outOf : ℚ) * 100))

/-- Embedding of the data path of `makeDataAndDrawChart` (lines 126-136):
filter the whole catalog by the priority, aggregate, and derive the percent
handed to `drawProgress`. -/
def makeDataAndDrawChart (checkedItems : Option (String → Bool))
    (ignoredItems : String → Bool) (checklists : Sections)
    (priority : String) : Option Int :=
  let sections := filterByPriority checklists priority
  let progress := calculateProgress checkedItems ignoredItems sections
  gaugePercent progress.completed progress.outOf

/-- Embedding of the `calculatePercentage` helper of `makeRadarData`
(lines 177-181): aggregate the single section filtered to the priority and
guard the division (`progress.outOf > 0 ? ... : 0`). -/
def calculatePercentage (checkedItems : Option (String → Bool))
    (ignoredItems : String → Bool) (sec : Section) (priority : String) : ℚ :=
  let filteredSections := filterByPriority [sec] priority
  let progress := calculateProgress checkedItems ignoredItems filteredSections
  if progress.outOf > 0 then (progress.completed : ℚ) / (progress.outOf : ℚ) * 100
  else 0

/-- JS `priority.charAt(0).toUpperCase() + priority.slice(1)` (line 188);
on the empty string both parts are empty. -/
def capitalize (s : String) : String :=
  match s.data with
  | [] => ""
  | c :: cs => ⟨c.toUpper :: cs⟩

/-- One radar series, as assembled by `buildDataForPriority` (lines
184-192): the dataset-template `borderWidth`, the capitalized priority
label, the per-section percentages and the series color. -/
structure RadarSeries where
  label : String
  data : List ℚ
  borderWidth : Nat
  backgroundColor : String
deriving Repr, DecidableEq

/-- The `RadarChartData` interface (lines 155-162), restricted to the
fields the builder fills. -/
structure RadarChartData where
  labels : List String
  datasets : List RadarSeries
deriving Repr, DecidableEq

/-- Embedding of `buildDataForPriority` (lines 184-192): one series whose
`data` holds `calculatePercentage` of every section, in catalog order. -/
def buildDataForPriority (checkedItems : Option (String → Bool))
    (ignoredItems : String → Bool) (sections : Sections)
    (priority : String) (color : String) : RadarSeries :=
  { label := capitalize priority
    data := sections.map (fun sec => calculatePercentage checkedItems ignoredItems sec priority)
    borderWidth := 1
    backgroundColor := color }

/-- Embedding of `makeRadarData` (lines 169-203): section titles as labels
and one series per priority tier, in the fixed order advanced, optional,
recommended. -/
def makeRadarData (checkedItems : Option (String → Bool))
    (ignoredItems : String → Bool) (sections : Sections) : RadarChartData :=
  { labels := sections.map Section.title
    datasets :=
      [buildDataForPriority checkedItems ignoredItems sections "advanced" "hsl(0 91% 71%/75%)",
       buildDataForPriority checkedItems ignoredItems sections "optional" "hsl(43 96% 56%/75%)",
       buildDataForPriority checkedItems ignoredItems sections "recommended" "hsl(158 64% 52%/75%)"] }

/-- All checklist items of a catalog, in traversal order. -/
def allItems (sections : Sections) : List ChecklistItem :=
  (sections.map Section.checklist).flatten

/-- Predicate "this item's normalized id is flagged in the snapshot". -/
def flagged (store : String → Bool) (item : ChecklistItem) : Bool :=
  store (normalize item.point)

lemma allItems_nil : allItems [] = [] := rfl

lemma allItems_cons (sec : Section) (tl : Sections) :
    allItems (sec :: tl) = sec.checklist ++ allItems tl := by
  simp [allItems]

lemma progressStep_eq (checked ignored : String → Bool) (acc : Int × Int)
    (item : ChecklistItem) :
    progressStep checked ignored acc item =
      (acc.1 + (if checked (normalize item.point) then 1 else 0),
       acc.2 - (if ignored (normalize item.point) then 1 else 0)) := by
  simp only [progressStep]
  by_cases h1 : checked (normalize item.point) <;>
    by_cases h2 : ignored (normalize item.point) <;> simp [h1, h2]

lemma foldl_progressStep (checked ignored : String → Bool)
    (l : List ChecklistItem) (c o : Int) :
    l.foldl (progressStep checked ignored) (c, o) =
      (c + (l.countP (flagged checked) : Int),
       o - (l.countP (flagged ignored) : Int)) := by
  induction l generalizing c o with
  | nil => simp
  | cons hd tl ih =>
      rw [List.foldl_cons, progressStep_eq, ih]
      by_cases h1 : checked (normalize hd.point) <;>
        by_cases h2 : ignored (normalize hd.point) <;>
          simp only [h1, h2, List.countP_cons, flagged, Prod.mk.injEq,
            if_true, if_false] <;>
          refine ⟨?_, ?_⟩ <;> push_cast <;> ring

lemma foldl_sections (checked ignored : String → Bool) (sections : Sections)
    (c o : Int) :
    sections.foldl
        (fun acc sec => sec.checklist.foldl (progressStep checked ignored) acc)
        (c, o) =
      (c + ((allItems sections).countP (flagged checked) : Int),
       o - ((allItems sections).countP (flagged ignored) : Int)) := by
  induction sections generalizing c o with
  | nil => simp [allItems_nil]
  | cons hd tl ih =>
      rw [List.foldl_cons, foldl_progressStep, ih, allItems_cons]
      simp only [List.countP_append, Prod.mk.injEq]
      constructor <;> push_cast <;> ring

lemma foldl_totalItems (sections : Sections) (init : Int) :
    sections.foldl (fun total sec => total + (sec.checklist.length : Int)) init =
      init + ((allItems sections).length : Int) := by
  induction sections generalizing init with
  | nil => simp [allItems_nil]
  | cons hd tl ih =>
      rw [List.foldl_cons, ih, allItems_cons]
      push_cast [List.length_append]
      ring

/-- Closed form of `calculateProgress` on a present completion snapshot:
`completed` counts the checked items, `outOf` is the item total minus the
count of ignored items. -/
lemma calculateProgress_some (checked ignored : String → Bool)
    (sections : Sections) :
    calculateProgress (some checked) ignored sections =
      ⟨((allItems sections).countP (flagged checked) : Int),
       ((allItems sections).length : Int)
         - ((allItems sections).countP (flagged ignored) : Int)⟩ := by
  cases sections with
  | nil => simp [calculateProgress, allItems_nil]
  | cons hd tl =>
      simp only [calculateProgress]
      rw [if_neg (by simp)]
      simp only [foldl_totalItems, foldl_sections]
      simp

lemma data_mk (l : List Char) : (String.mk l).data = l := rfl

lemma char_toNat_ofNat_valid (n : Nat) (h : n.isValidChar) :
    (Char.ofNat n).toNat = n := by
  simp only [Char.ofNat, dif_pos h]
  simp [Char.ofNatAux, Char.toNat, UInt32.toNat, BitVec.toNat_ofNatLt]

lemma toLower_idem (c : Char) : c.toLower.toLower = c.toLower := by
  simp only [Char.toLower]
  by_cases h : c.toNat ≥ 65 ∧ c.toNat ≤ 90
  · rw [if_pos h]
    have hv : (Char.ofNat (c.toNat + 32)).toNat = c.toNat + 32 :=
      char_toNat_ofNat_valid _ (Or.inl (by omega))
    rw [hv, if_neg (by omega)]
  · rw [if_neg h, if_neg h]

lemma normalize_char_idem (c : Char) :
    (if (if c.toLower = ' ' then '-' else c.toLower).toLower = ' ' then '-'
     else (if c.toLower = ' ' then '-' else c.toLower).toLower) =
      (if c.toLower = ' ' then '-' else c.toLower) := by
  by_cases h : c.toLower = ' '
  · simp only [h, if_pos rfl]
    decide
  · rw [if_neg h, toLower_idem, if_neg h]

/-- C6: the id normalization lowercases the string and replaces every space
with a hyphen, so `normalize "Use Strong Passwords" = "use-strong-passwords"`,
and it is idempotent: `normalize (normalize x) = normalize x` for every
string `x`. -/
theorem claim_C6 :
    normalize "Use Strong Passwords" = "use-strong-passwords" ∧
    ∀ x : String, normalize (normalize x) = normalize x := by
  constructor
  · rfl
  · intro x
    simp only [normalize, data_mk, List.map_map]
    congr 1
    induction x.data with
    | nil => rfl
    | cons hd rest ih =>
        simp only [List.map_cons, List.cons.injEq]
        exact ⟨normalize_char_idem hd, ih⟩

/-- C3: with the completion snapshot present, aggregation returns
`completed` equal to the number of items whose normalized id maps to true
in the completion state, and `outOf` equal to the total number of checklist
items minus the number of items whose normalized id maps to true in the
ignore state. -/
theorem claim_C3 (checked ignored : String → Bool) (sections : Sections) :
    calculateProgress (some checked) ignored sections =
      ⟨((allItems sections).countP (fun it => checked (normalize it.point)) : Int),
       ((allItems sections).length : Int)
         - ((allItems sections).countP (fun it => ignored (normalize it.point)) : Int)⟩ :=
  calculateProgress_some checked ignored sections

/-- C9: a null / undefined completion snapshot makes aggregation return
`{completed := 0, outOf := 0}` for every sections list, whereas with a
present completion snapshot and an empty ignore snapshot `outOf` equals the
total item count (an empty ignore snapshot never reduces `outOf`). -/
theorem claim_C9 :
    (∀ (ignored : String → Bool) (sections : Sections),
      calculateProgress none ignored sections = ⟨0, 0⟩) ∧
    (∀ (checked : String → Bool) (sections : Sections),
      (calculateProgress (some checked) (fun _ => false) sections).outOf =
        ((allItems sections).length : Int)) := by
  constructor
  · intro ignored sections
    rfl
  · intro checked sections
    rw [calculateProgress_some]
    have hz : (allItems sections).countP (flagged (fun _ => false)) = 0 := by
      simp [flagged]
    simp [hz]

/-- C10: for every pair of snapshots and every sections list, the result of
aggregation satisfies `0 ≤ completed ≤ N` and `outOf ≤ N`, where `N` is the
total number of checklist items. -/
theorem claim_C10 (checkedItems : Option (String → Bool))
    (ignored : String → Bool) (sections : Sections) :
    0 ≤ (calculateProgress checkedItems ignored sections).completed ∧
    (calculateProgress checkedItems ignored sections).completed ≤
      ((allItems sections).length : Int) ∧
    (calculateProgress checkedItems ignored sections).outOf ≤
      ((allItems sections).length : Int) := by
  cases checkedItems with
  | none =>
      have : calculateProgress none ignored sections = ⟨0, 0⟩ := rfl
      rw [this]
      refine ⟨le_refl 0, ?_, ?_⟩ <;> simp
  | some checked =>
      rw [calculateProgress_some]
      dsimp only
      have h1 := List.countP_le_length (l := allItems sections) (flagged checked)
      have h2 : 0 ≤ ((allItems sections).countP (flagged ignored) : Int) :=
        Int.ofNat_nonneg _
      refine ⟨Int.ofNat_nonneg _, ?_, ?_⟩
      · exact_mod_cast h1
      · omega

/-- C8: aggregation of an empty sections list, or of any sections list all
of whose checklists are empty, returns `{completed := 0, outOf := 0}`. -/
theorem claim_C8 (checkedItems : Option (String → Bool))
    (ignored : String → Bool) (sections : Sections)
    (h : ∀ sec ∈ sections, sec.checklist = []) :
    calculateProgress checkedItems ignored sections = ⟨0, 0⟩ := by
  cases checkedItems with
  | none => rfl
  | some checked =>
      rw [calculateProgress_some]
      have hall : allItems sections = [] := by
        induction sections with
        | nil => rfl
        | cons hd tl ih =>
            rw [allItems_cons, h hd (by simp),
              ih (fun s hs => h s (List.mem_cons_of_mem hd hs))]
            rfl
      simp [hall]

/-- Witness for C8 at a one-section catalog with an empty checklist. -/
theorem claim_C8_witness :
    calculateProgress (some fun _ => true) (fun _ => true) [⟨"Empty", []⟩] =
      ⟨0, 0⟩ :=
  claim_C8 (some fun _ => true) (fun _ => true) [⟨"Empty", []⟩]
    (by intro sec hs; simp at hs; rw [hs])

/-- C2: an item that is both completed and ignored still increments
`completed` and decrements `outOf` (the per-item step sends `(c, o)` to
`(c + 1, o - 1)`), so a catalog holding a single such item aggregates to
`completed > outOf`. -/
theorem claim_C2 (checked ignored : String → Bool) (c o : Int)
    (title : String) (item : ChecklistItem)
    (hc : checked (normalize item.point) = true)
    (hi : ignored (normalize item.point) = true) :
    progressStep checked ignored (c, o) item = (c + 1, o - 1) ∧
    (calculateProgress (some checked) ignored [⟨title, [item]⟩]).completed >
      (calculateProgress (some checked) ignored [⟨title, [item]⟩]).outOf := by
  constructor
  · rw [progressStep_eq, hc, hi]
    simp
  · rw [calculateProgress_some]
    have hall : allItems [⟨title, [item]⟩] = [item] := rfl
    rw [hall]
    simp [flagged, hc, hi, List.countP_cons]

/-- Witness for C2: a concrete item marked both completed and ignored. -/
theorem claim_C2_witness :
    progressStep (fun _ => true) (fun _ => true) (0, 1)
        ⟨"Use MFA", "recommended"⟩ = ((0 : Int) + 1, (1 : Int) - 1) ∧
    (calculateProgress (some fun _ => true) (fun _ => true)
        [⟨"Auth", [⟨"Use MFA", "recommended"⟩]⟩]).completed >
      (calculateProgress (some fun _ => true) (fun _ => true)
        [⟨"Auth", [⟨"Use MFA", "recommended"⟩]⟩]).outOf :=
  claim_C2 (fun _ => true) (fun _ => true) 0 1 "Auth"
    ⟨"Use MFA", "recommended"⟩ rfl rfl

/-- C1: evaluation at a catalog whose single item is not of the requested
tier, with empty stores. The per-(section,tier) radar path guards the
division and yields 0, but the per-tier gauge path divides `completed` by
`outOf` without a guard, so at `outOf = 0` the value handed to
`drawProgress` is `Math.round(0 / 0 * 100) = NaN` (modelled `none`), not 0:
the claim fails on the gauge path. -/
theorem claim_C1_eval :
    makeDataAndDrawChart (some fun _ => false) (fun _ => false)
        [⟨"Auth", [⟨"Use MFA", "optional"⟩]⟩] "recommended" = none ∧
    calculatePercentage (some fun _ => false) (fun _ => false)
        ⟨"Auth", [⟨"Use MFA", "optional"⟩]⟩ "recommended" = 0 := by
  constructor
  · rfl
  · rfl

/-- C5: priority filtering preserves the section count and order, keeps
each section's title, restricts each checklist to exactly the items whose
normalized priority equals the normalized target, and never lengthens a
checklist. -/
theorem claim_C5 (sections : Sections) (priority : String) :
    (filterByPriority sections priority).length = sections.length ∧
    ∀ (i : Nat) (sec sec' : Section),
      sections[i]? = some sec →
      (filterByPriority sections priority)[i]? = some sec' →
      sec'.title = sec.title ∧
      sec'.checklist = sec.checklist.filter
        (fun item => normalize item.priority == normalize priority) ∧
      sec'.checklist.length ≤ sec.checklist.length := by
  constructor
  · simp [filterByPriority]
  · intro i sec sec' h h'
    simp only [filterByPriority, List.getElem?_map, h, Option.map_some',
      Option.some.injEq] at h'
    subst h'
    exact ⟨rfl, rfl, List.length_filter_le _ _⟩

/-- Witness for C5 at the spec's end-to-end example catalog. -/
theorem claim_C5_witness :
    (filterByPriority [⟨"Auth", [⟨"Use MFA", "recommended"⟩,
        ⟨"Rotate Keys", "optional"⟩]⟩] "recommended").length = 1 ∧
    ("Auth" : String) = "Auth" ∧
    [ChecklistItem.mk "Use MFA" "recommended"] =
      ([⟨"Use MFA", "recommended"⟩, ⟨"Rotate Keys", "optional"⟩] :
        List ChecklistItem).filter
        (fun item => normalize item.priority == normalize "recommended") ∧
    (1 : Nat) ≤ 2 := by
  have h := claim_C5 [⟨"Auth", [⟨"Use MFA", "recommended"⟩,
    ⟨"Rotate Keys", "optional"⟩]⟩] "recommended"
  have h2 := h.2 0 ⟨"Auth", [⟨"Use MFA", "recommended"⟩,
    ⟨"Rotate Keys", "optional"⟩]⟩ ⟨"Auth", [⟨"Use MFA", "recommended"⟩]⟩
    rfl (by decide)
  exact ⟨h.1, h2.1, h2.2.1, h2.2.2⟩

/-- C7: an item whose priority normalize-matches none of the three tiers is
excluded from every tier's filtered view, yet unfiltered aggregation still
counts it in `outOf` (and in `completed` when its id is checked). -/
theorem claim_C7 (checked ignored : String → Bool) (item : ChecklistItem)
    (h : ∀ t ∈ (["recommended", "optional", "advanced"] : List String),
      normalize item.priority ≠ normalize t) :
    (∀ t ∈ (["recommended", "optional", "advanced"] : List String),
      ∀ (sections : Sections), ∀ sec' ∈ filterByPriority sections t,
        item ∉ sec'.checklist) ∧
    ∀ title : String,
      calculateProgress (some checked) ignored [⟨title, [item]⟩] =
        ⟨if checked (normalize item.point) then 1 else 0,
         1 - if ignored (normalize item.point) then 1 else 0⟩ := by
  constructor
  · intro t ht sections sec' hsec' hmem
    simp only [filterByPriority, List.mem_map] at hsec'
    obtain ⟨sec, _, rfl⟩ := hsec'
    have hp := List.of_mem_filter hmem
    exact h t ht (by simpa using hp)
  · intro title
    rw [calculateProgress_some]
    have hall : allItems [⟨title, [item]⟩] = [item] := rfl
    rw [hall]
    by_cases hc : checked (normalize item.point) <;>
      by_cases hi : ignored (normalize item.point) <;>
        simp [flagged, hc, hi, List.countP_cons]

/-- Witness for C7: an item with the unrecognized priority "essential". -/
theorem claim_C7_witness :
    ChecklistItem.mk "Mystery Item" "essential" ∉ ([] : List ChecklistItem) ∧
    calculateProgress (some fun _ => false) (fun _ => false)
        [⟨"Auth", [⟨"Mystery Item", "essential"⟩]⟩] = ⟨0, 1⟩ := by
  have h := claim_C7 (fun _ => false) (fun _ => false)
    ⟨"Mystery Item", "essential"⟩ (by decide)
  exact ⟨h.1 "recommended" (by decide)
    [⟨"Auth", [⟨"Mystery Item", "essential"⟩]⟩] ⟨"Auth", []⟩ (by decide),
    h.2 "Auth"⟩

/-- C4: the radar dataset's labels are exactly the section titles in
catalog order (hence one label per section), every series' values list has
one entry per section, and entry `i` of each series is the guarded
percentage `outOf > 0 ? completed / outOf * 100 : 0` of aggregating section
`i` filtered to that series' tier (series order: advanced, optional,
recommended). -/
theorem claim_C4 (checkedItems : Option (String → Bool))
    (ignored : String → Bool) (sections : Sections) :
    (makeRadarData checkedItems ignored sections).labels =
      sections.map Section.title ∧
    (makeRadarData checkedItems ignored sections).labels.length =
      sections.length ∧
    (makeRadarData checkedItems ignored sections).datasets.map
        (fun series => series.data.length) =
      [sections.length, sections.length, sections.length] ∧
    ∀ (i : Nat) (sec : Section), sections[i]? = some sec →
      (makeRadarData checkedItems ignored sections).datasets.map
          (fun series => series.data[i]?) =
        [some (if (calculateProgress checkedItems ignored
                    (filterByPriority [sec] "advanced")).outOf > 0
               then ((calculateProgress checkedItems ignored
                      (filterByPriority [sec] "advanced")).completed : ℚ) /
                    ((calculateProgress checkedItems ignored
                      (filterByPriority [sec] "advanced")).outOf : ℚ) * 100
               else 0),
         some (if (calculateProgress checkedItems ignored
                    (filterByPriority [sec] "optional")).outOf > 0
               then ((calculateProgress checkedItems ignored
                      (filterByPriority [sec] "optional")).completed : ℚ) /
                    ((calculateProgress checkedItems ignored
                      (filterByPriority [sec] "optional")).outOf : ℚ) * 100
               else 0),
         some (if (calculateProgress checkedItems ignored
                    (filterByPriority [sec] "recommended")).outOf > 0
               then ((calculateProgress checkedItems ignored
                      (filterByPriority [sec] "recommended")).completed : ℚ) /
                    ((calculateProgress checkedItems ignored
                      (filterByPriority [sec] "recommended")).outOf : ℚ) * 100
               else 0)] := by
  refine ⟨rfl, by simp [makeRadarData],
    by simp [makeRadarData, buildDataForPriority], ?_⟩
  intro i sec h
  simp only [makeRadarData, buildDataForPriority, List.map_cons, List.map_nil,
    List.getElem?_map, h, Option.map_some', calculatePercentage]

/-- Witness for C4 at the spec's end-to-end example: one section, the
"use-mfa" item completed, nothing ignored. -/
theorem claim_C4_witness :
    (makeRadarData (some fun s => s == "use-mfa") (fun _ => false)
        [⟨"Auth", [⟨"Use MFA", "recommended"⟩,
          ⟨"Rotate Keys", "optional"⟩]⟩]).datasets.map
        (fun series => series.data[0]?) =
      [some 0, some 0, some 100] := by
  have h := (claim_C4 (some fun s => s == "use-mfa") (fun _ => false)
    [⟨"Auth", [⟨"Use MFA", "recommended"⟩, ⟨"Rotate Keys", "optional"⟩]⟩]).2.2.2
    0 ⟨"Auth", [⟨"Use MFA", "recommended"⟩, ⟨"Rotate Keys", "optional"⟩]⟩ rfl
  have ha : calculateProgress (some fun s => s == "use-mfa") (fun _ => false)
      (filterByPriority [⟨"Auth", [⟨"Use MFA", "recommended"⟩,
        ⟨"Rotate Keys", "optional"⟩]⟩] "advanced") = ⟨0, 0⟩ := rfl
  have ho : calculateProgress (some fun s => s == "use-mfa") (fun _ => false)
      (filterByPriority [⟨"Auth", [⟨"Use MFA", "recommended"⟩,
        ⟨"Rotate Keys", "optional"⟩]⟩] "optional") = ⟨0, 1⟩ := rfl
  have hr : calculateProgress (some fun s => s == "use-mfa") (fun _ => false)
      (filterByPriority [⟨"Auth", [⟨"Use MFA", "recommended"⟩,
        ⟨"Rotate Keys", "optional"⟩]⟩] "recommended") = ⟨1, 1⟩ := rfl
  rw [h, ha, ho, hr]
  norm_num

end PSC
